import Mathlib

/-!
Verification of the request-coalescing background worker (`qr_app`).

Shallow embedding of `src/lib.rs` and `src/main.rs`: a single worker thread
consumes `QrGenerationRequest`s from an unbounded multi-producer
single-consumer channel, coalesces bursts of requests to the most recent one,
runs the QR generator and renderer, and delivers the result through a
callback.  The producer side holds the channel's `Sender` behind a
reference-counted `Rc`, hands out `Weak` handles, and shuts down by dropping
its strong reference.

External collaborators (the `fast_qr` generator/renderer and the `slint`
pixel buffer and event loop) are not part of this repository; the worker is
parametrized over them, and concrete instances faithful to the spec's
interface description are supplied where a claim needs them.
-/

namespace QrApp

/-- Model of `fast_qr::ECL`: the four error-correction (robustness) levels. -/
inductive ECL
  | L
  | M
  | Q
  | H
  deriving DecidableEq, Repr

/-- Model of `QrGenerationRequest` from `src/lib.rs`: payload plus optional
error-correction level (`None` = library default). -/
structure QrGenerationRequest where
  data : String
  correction_level : Option ECL
  deriving DecidableEq, Repr

/-- The intermediate structured code produced by the generator
(`fast_qr::QRCode`, opaque to the core: it records what was encoded). -/
structure QRCode where
  data : String
  ecl : ECL
  deriving DecidableEq, Repr

/-- Model of the `fast_qr::QRBuilder` state as configured by `new_qr_code_image`:
the input string and the explicitly requested ECL, if any. -/
structure QRBuilder where
  input : String
  ecl : Option ECL
  deriving DecidableEq, Repr

/-- Constructor `QRBuilder::new(data)`: fresh builder, library-default ECL. -/
def QRBuilder.new (data : String) : QRBuilder :=
  { input := data, ecl := none }

/-- Setter `builder.ecl(correction_level)`: select an explicit ECL. -/
def QRBuilder.setEcl (b : QRBuilder) (e : ECL) : QRBuilder :=
  { b with ecl := some e }

/-- A pixel map as produced by the renderer (`fast_qr` `ImageBuilder::to_pixmap`):
width, height and raw RGBA byte data. -/
structure Pixmap where
  width : Nat
  height : Nat
  data : List UInt8
  deriving DecidableEq, Repr

/-- Model of `slint::SharedPixelBuffer<Rgba8Pixel>`: dimensions plus pixel bytes. -/
structure SharedPixelBuffer where
  width : Nat
  height : Nat
  pixels : List UInt8
  deriving DecidableEq, Repr

/-- Model of `SharedPixelBuffer::clone_from_slice(data, width, height)`: copies the
byte slice into a fresh buffer of the given dimensions. -/
def SharedPixelBuffer.clone_from_slice (data : List UInt8) (width height : Nat) :
    SharedPixelBuffer :=
  { width := width, height := height, pixels := data }

/-- Alias for `PixelMapResult = Result<SharedPixelBuffer<Rgba8Pixel>, String>`. -/
abbrev PixelMapResult := Except String SharedPixelBuffer

/-- Model of the `slint::EventLoopError` returned by the display callback, as its
display message (the worker only ever converts it `to_string` for the log). -/
abbrev EventLoopError := String

/-- Embedding of `new_qr_code_image` from `src/lib.rs`, parametrized over the external
`QRBuilder::build` (`fast_qr`, not repository code); the builder's error is
already rendered to its human-readable string (`map_err(|err| err.to_string())`). -/
def new_qr_code_image (build : QRBuilder → Except String QRCode)
    (settings : QrGenerationRequest) : Except String QRCode :=
  let builder := QRBuilder.new settings.data
  let builder :=
    match settings.correction_level with
    | some correction_level => builder.setEcl correction_level
    | none => builder
  build builder

/-! The channel (`std::sync::mpsc`).

The transport is modelled by its queue of pending requests together with the
number of live strong references to the sending half.  `recv` blocks until a
message is available and reports disconnection only when the queue is empty
and every sender has been dropped; `try_recv` never blocks.  (These are the
documented semantics of `std::sync::mpsc`, which is not repository code.) -/

/-- Channel state: FIFO queue of pending requests, and the number of live
strong references to the `Sender`. -/
structure Channel where
  queue : List QrGenerationRequest
  senders : Nat
  deriving DecidableEq, Repr

/-- Result of `Receiver::try_recv`: a message and the remaining queue,
or nothing available right now. -/
def try_recv (q : List QrGenerationRequest) :
    Option (QrGenerationRequest × List QrGenerationRequest) :=
  match q with
  | [] => none
  | r :: rest => some (r, rest)

/-- Outcome of the blocking `Receiver::recv`. -/
inductive RecvOutcome
  | ok (r : QrGenerationRequest) (rest : List QrGenerationRequest)
  | disconnected
  | wouldBlock
  deriving DecidableEq, Repr

/-- Blocking `Receiver::recv`: delivers a buffered message if one exists;
with an empty queue it returns `Err(RecvError)` exactly when every sender has
been dropped, and otherwise blocks (`wouldBlock`: the call does not return
until a producer acts). -/
def recv (q : List QrGenerationRequest) (senders : Nat) : RecvOutcome :=
  match q with
  | r :: rest => .ok r rest
  | [] => if senders = 0 then .disconnected else .wouldBlock

/-! The worker loop (`BackgroundThread::work_when_available`). -/

/-- The inner drain loop
`while let Ok(new_request) = self.receiver.try_recv() { qr_gen_req = new_request }`:
repeatedly replace the candidate with the next already-queued request until
the channel reports empty; returns the surviving candidate. -/
def drainLatest (cand : QrGenerationRequest) (q : List QrGenerationRequest) :
    QrGenerationRequest :=
  match q with
  | [] => cand
  | r :: rest => drainLatest r rest

/-- Ghost-instrumented record of one iteration of the worker loop:
which request was dispatched, which structured codes were rendered (empty on
generation failure), the result handed to the callback, and log lines. -/
structure DispatchOutcome where
  dispatched : QrGenerationRequest
  rendered : List QRCode
  result : PixelMapResult
  logs : List String
  deriving Repr

/-- One iteration body of `work_when_available`, after the blocking `recv`
returned `first` leaving `queued` buffered: drain the queue keeping only the
latest request, run the generator (`new_qr_code_image`), on success render to
a pixmap and convert it to a `SharedPixelBuffer`, then invoke the display
callback, logging (not propagating) any error it returns. -/
def dispatchOne (build : QRBuilder → Except String QRCode)
    (render : QRCode → Pixmap)
    (deliver : PixelMapResult → Except EventLoopError Unit)
    (first : QrGenerationRequest) (queued : List QrGenerationRequest) :
    DispatchOutcome :=
  let qr_gen_req := drainLatest first queued
  let image_result := (new_qr_code_image build qr_gen_req).map render
  let pix_buffer_result := image_result.map
    (fun pixmap => SharedPixelBuffer.clone_from_slice pixmap.data pixmap.width pixmap.height)
  let logs :=
    match deliver pix_buffer_result with
    | .error e => ["Error while calling display callback: " ++ e]
    | .ok _ => []
  { dispatched := qr_gen_req
    rendered := match new_qr_code_image build qr_gen_req with
      | .ok code => [code]
      | .error _ => []
    result := pix_buffer_result
    logs := logs }

/-- How the worker loop left its last blocking receive: `stopped` when `recv`
observed disconnection and the thread returned, `blocked` when it is still
parked inside `recv` waiting for a message. -/
inductive WorkerExit
  | stopped
  | blocked
  deriving DecidableEq, Repr

/-- One observation step of the loop on a channel state: `recv`, then (if a
request arrived) the drain-and-dispatch body, leaving the queue empty. -/
inductive StepOutcome
  | dispatched (out : DispatchOutcome) (ch : Channel)
  | stopped
  | blocked
  deriving Repr

/-- One iteration of `work_when_available` on an explicit channel state. -/
def workerStep (build : QRBuilder → Except String QRCode)
    (render : QRCode → Pixmap)
    (deliver : PixelMapResult → Except EventLoopError Unit)
    (ch : Channel) : StepOutcome :=
  match recv ch.queue ch.senders with
  | .disconnected => .stopped
  | .wouldBlock => .blocked
  | .ok r rest => .dispatched (dispatchOne build render deliver r rest) ⟨[], ch.senders⟩

/-- Ghost-instrumented trace of a whole run of `work_when_available`. -/
structure RunResult where
  dispatched : List QrGenerationRequest
  rendered : List QRCode
  results : List PixelMapResult
  logs : List String
  exit : WorkerExit
  deriving Repr

/-- A full run of `work_when_available`.  Each element of `batches` is the
channel content found by one blocking `recv` (the request it returns, plus
everything further already enqueued when the drain starts); after the last
batch the queue stays empty, so the next `recv` either observes disconnection
(`senders = 0`) and the loop returns, or parks forever. -/
def work_when_available (build : QRBuilder → Except String QRCode)
    (render : QRCode → Pixmap)
    (deliver : PixelMapResult → Except EventLoopError Unit) :
    List (QrGenerationRequest × List QrGenerationRequest) → Nat → RunResult
  | [], senders =>
      { dispatched := [], rendered := [], results := [], logs := []
        exit := if senders = 0 then .stopped else .blocked }
  | (first, queued) :: batches, senders =>
      let out := dispatchOne build render deliver first queued
      let rest := work_when_available build render deliver batches senders
      { dispatched := out.dispatched :: rest.dispatched
        rendered := out.rendered ++ rest.rendered
        results := out.result :: rest.results
        logs := out.logs ++ rest.logs
        exit := rest.exit }

/-! Producer side: the reference-counted sender and `generate_qr_code`.

`BackgroundThreadCommunicator` holds `Rc<Sender<QrGenerationRequest>>`;
producers get `rc::Weak` handles.  A weak handle carries no data of its own:
whether it upgrades is determined by the current strong count of the shared
`Rc`, so the producer-facing state is the strong count together with the
channel queue (and whether the receiving half — the worker — is still alive,
which decides whether `send` succeeds). -/

/-- Producer-visible application state: strong-reference count of the shared
`Rc<Sender>`, liveness of the receiving half, and the channel queue. -/
structure AppState where
  senderStrong : Nat
  receiverAlive : Bool
  queue : List QrGenerationRequest
  deriving DecidableEq, Repr

/-- State after `BackgroundThreadCommunicator::new_thread`: the Communicator
holds the single strong reference, the freshly spawned worker owns the live
receiver, nothing is queued. -/
def new_thread_state : AppState :=
  { senderStrong := 1, receiverAlive := true, queue := [] }

/-- Model of `rc::Weak::upgrade` on the shared sender: fails when no strong reference
is left, otherwise yields a temporary strong reference (count incremented). -/
def upgrade (strong : Nat) : Option Nat :=
  if strong = 0 then none else some (strong + 1)

/-- Embedding of `BackgroundThreadCommunicator::get_weak_sender` (`Rc::downgrade`):
does not touch the strong count, the receiver, or the queue. -/
def get_weak_sender (st : AppState) : AppState :=
  st

/-- Embedding of `BackgroundThreadCommunicator::stop_sender`: consumes the Communicator and
drops its strong reference to the sender. -/
def stop_sender (st : AppState) : AppState :=
  { st with senderStrong := st.senderStrong - 1 }

/-- The slint-side `EcLevel` enum from `src/main.rs` / the UI definition. -/
inductive EcLevel
  | Default
  | L
  | M
  | Q
  | H
  deriving DecidableEq, Repr

/-- Embedding of `EcLevel::to_qr_enum` from `src/main.rs`: converts slint's `EcLevel` to
`Option<fast_qr::ECL>`. -/
def EcLevel.to_qr_enum : EcLevel → Option ECL
  | .Default => none
  | .L => some .L
  | .M => some .M
  | .Q => some .Q
  | .H => some .H

/-- Embedding of `generate_qr_code` from `src/main.rs`: try to upgrade the weak sender; on
success enqueue the request over the temporary strong reference and drop that
reference when the `if let` scope ends (before returning); if `send` fails the
error is logged; if the upgrade fails the request is dropped with a warning.
Returns the new state and the log lines emitted. -/
def generate_qr_code (st : AppState) (shared_data : String) (ec_level : EcLevel) :
    AppState × List String :=
  let data := shared_data
  let ecl := ec_level.to_qr_enum
  match upgrade st.senderStrong with
  | some strong =>
      if st.receiverAlive then
        ({ st with senderStrong := strong - 1
                   queue := st.queue ++ [{ data := data, correction_level := ecl }] },
          [])
      else
        ({ st with senderStrong := strong - 1 },
          ["Send error while sending: sending on a closed channel"])
  | none =>
      (st, ["Tried sending but thread sender doesn't exist!"])

/-- One producer-side operation on the live Communicator. -/
inductive ProducerOp
  | genQr (shared_data : String) (ec_level : EcLevel)
  | getWeak
  deriving DecidableEq, Repr

/-- Apply one producer operation to the state. -/
def applyOp (st : AppState) : ProducerOp → AppState
  | .genQr d e => (generate_qr_code st d e).1
  | .getWeak => get_weak_sender st

/-- Apply a sequence of producer operations. -/
def applyOps (st : AppState) (ops : List ProducerOp) : AppState :=
  ops.foldl applyOp st

/-! Spec-modelled external collaborators.

The generator and renderer live in the external `fast_qr` crate (spec §6);
they are modelled here from the spec's interface description so that the
parametrized worker can be run on concrete instances. -/

/-- Maximum byte capacity of a QR code at each error-correction level
(version 40 binary capacity; the spec's data-dependent failure condition
compares payload size against the capacity of the requested level). -/
def eclCapacity : ECL → Nat
  | .L => 2953
  | .M => 2331
  | .Q => 1663
  | .H => 1273

/-- Modelled from the spec: the external Generator (`fast_qr`
`QRBuilder::build`, not part of this repository).  Pure and data-dependent:
it fails with a human-readable message exactly when the payload exceeds the
capacity of the requested robustness level (the library default level when
none was requested), and otherwise returns the structured code. -/
def specBuild (b : QRBuilder) : Except String QRCode :=
  let level := b.ecl.getD ECL.Q
  if b.input.length ≤ eclCapacity level then
    .ok { data := b.input, ecl := level }
  else
    .error "The supplied data is too long to fit in a QR code at this level"

/-- Modelled from the spec: the external Renderer (`fast_qr`
`ImageBuilder::to_pixmap`, not part of this repository).  Pure and
infallible: renders the structured code as a square RGBA pixel map
(4 bytes per pixel). -/
def specToPixmap (c : QRCode) : Pixmap :=
  let side := 17 + 4 * (1 + c.data.length / 17)
  { width := side, height := side
    data := List.replicate (side * side * 4) 255 }

/-- The value a dispatch of `req` hands to the display callback: generate,
render on success, and convert the pixmap to a `SharedPixelBuffer`. -/
def dispatchResult (build : QRBuilder → Except String QRCode)
    (render : QRCode → Pixmap) (req : QrGenerationRequest) : PixelMapResult :=
  ((new_qr_code_image build req).map render).map
    (fun pixmap => SharedPixelBuffer.clone_from_slice pixmap.data pixmap.width pixmap.height)

/-- A payload one byte beyond the modelled default-level capacity. -/
def bigPayload : String :=
  String.mk (List.replicate 1664 'a')

/-- An oversized request that the modelled generator rejects. -/
def bigReq : QrGenerationRequest :=
  { data := bigPayload, correction_level := none }

/-- The buffer delivered for the `"Test data 123"` scenario under the
spec-modelled generator and renderer. -/
def testBuf : SharedPixelBuffer :=
  SharedPixelBuffer.clone_from_slice
    (specToPixmap { data := "Test data 123", ecl := ECL.Q }).data
    (specToPixmap { data := "Test data 123", ecl := ECL.Q }).width
    (specToPixmap { data := "Test data 123", ecl := ECL.Q }).height

/-! Basic lemmas. -/

/-- The drain loop keeps exactly the last request of the queue (the candidate
when the queue is empty). -/
theorem drainLatest_eq_getLastD (cand : QrGenerationRequest) :
    ∀ q : List QrGenerationRequest, drainLatest cand q = q.getLastD cand := by
  intro q
  induction q generalizing cand with
  | nil => rfl
  | cons r rest ih =>
      rw [show drainLatest cand (r :: rest) = drainLatest r rest from rfl,
        List.getLastD_cons]
      exact ih r

theorem dispatchOne_dispatched (build : QRBuilder → Except String QRCode)
    (render : QRCode → Pixmap)
    (deliver : PixelMapResult → Except EventLoopError Unit)
    (first : QrGenerationRequest) (queued : List QrGenerationRequest) :
    (dispatchOne build render deliver first queued).dispatched = queued.getLastD first := by
  simp [dispatchOne, drainLatest_eq_getLastD]

theorem dispatchOne_result (build : QRBuilder → Except String QRCode)
    (render : QRCode → Pixmap)
    (deliver : PixelMapResult → Except EventLoopError Unit)
    (first : QrGenerationRequest) (queued : List QrGenerationRequest) :
    (dispatchOne build render deliver first queued).result
      = dispatchResult build render (queued.getLastD first) := by
  simp [dispatchOne, dispatchResult, drainLatest_eq_getLastD]

theorem dispatchOne_logs (build : QRBuilder → Except String QRCode)
    (render : QRCode → Pixmap)
    (deliver : PixelMapResult → Except EventLoopError Unit)
    (first : QrGenerationRequest) (queued : List QrGenerationRequest) :
    (dispatchOne build render deliver first queued).logs
      = match deliver (dispatchResult build render (queued.getLastD first)) with
        | .error e => ["Error while calling display callback: " ++ e]
        | .ok _ => [] := by
  simp [dispatchOne, dispatchResult, drainLatest_eq_getLastD]

theorem run_dispatched (build : QRBuilder → Except String QRCode)
    (render : QRCode → Pixmap)
    (deliver : PixelMapResult → Except EventLoopError Unit)
    (batches : List (QrGenerationRequest × List QrGenerationRequest)) (senders : Nat) :
    (work_when_available build render deliver batches senders).dispatched
      = batches.map (fun p => p.2.getLastD p.1) := by
  induction batches with
  | nil => rfl
  | cons p bs ih =>
      cases p with
      | mk first queued =>
          simp [work_when_available, dispatchOne_dispatched, ih]

theorem run_results (build : QRBuilder → Except String QRCode)
    (render : QRCode → Pixmap)
    (deliver : PixelMapResult → Except EventLoopError Unit)
    (batches : List (QrGenerationRequest × List QrGenerationRequest)) (senders : Nat) :
    (work_when_available build render deliver batches senders).results
      = batches.map (fun p => dispatchResult build render (p.2.getLastD p.1)) := by
  induction batches with
  | nil => rfl
  | cons p bs ih =>
      cases p with
      | mk first queued =>
          simp [work_when_available, dispatchOne_result, ih]

theorem run_exit (build : QRBuilder → Except String QRCode)
    (render : QRCode → Pixmap)
    (deliver : PixelMapResult → Except EventLoopError Unit)
    (batches : List (QrGenerationRequest × List QrGenerationRequest)) (senders : Nat) :
    (work_when_available build render deliver batches senders).exit
      = if senders = 0 then WorkerExit.stopped else WorkerExit.blocked := by
  induction batches with
  | nil => rfl
  | cons p bs ih =>
      cases p with
      | mk first queued => simpa [work_when_available] using ih

theorem run_logs (build : QRBuilder → Except String QRCode)
    (render : QRCode → Pixmap)
    (deliver : PixelMapResult → Except EventLoopError Unit)
    (batches : List (QrGenerationRequest × List QrGenerationRequest)) (senders : Nat) :
    (work_when_available build render deliver batches senders).logs
      = (work_when_available build render deliver batches senders).results.filterMap
          (fun res =>
            match deliver res with
            | .error e => some ("Error while calling display callback: " ++ e)
            | .ok _ => none) := by
  induction batches with
  | nil => rfl
  | cons p bs ih =>
      cases p with
      | mk first queued =>
          simp only [work_when_available, List.filterMap_cons, dispatchOne_logs,
            dispatchOne_result, ← ih]
          cases deliver (dispatchResult build render (queued.getLastD first)) <;> simp

theorem generate_qr_code_strong (st : AppState) (d : String) (e : EcLevel) :
    ((generate_qr_code st d e).1).senderStrong = st.senderStrong := by
  by_cases h : st.senderStrong = 0
  · simp [generate_qr_code, upgrade, h]
  · cases hr : st.receiverAlive <;> simp [generate_qr_code, upgrade, h, hr]

theorem applyOps_strong (st : AppState) (ops : List ProducerOp) :
    (applyOps st ops).senderStrong = st.senderStrong := by
  induction ops generalizing st with
  | nil => rfl
  | cons op ops ih =>
      cases op with
      | genQr d e =>
          simpa [applyOps, applyOp, List.foldl_cons] using
            (ih ((generate_qr_code st d e).1)).trans (generate_qr_code_strong st d e)
      | getWeak => simpa [applyOps, applyOp, get_weak_sender, List.foldl_cons] using ih st

/-! Claims. -/

/-- Claim C1: for every batch of requests already enqueued when the worker
begins a dispatch, the non-blocking drain keeps only the last-received
request; the callback is invoked exactly once per batch, its argument is the
result computed from that last request, and no earlier request of a batch is
ever dispatched (so earlier requests cause no callback invocation and no
side effect). -/
theorem coalesce_dispatches_last_request_only
    (build : QRBuilder → Except String QRCode) (render : QRCode → Pixmap)
    (deliver : PixelMapResult → Except EventLoopError Unit)
    (batches : List (QrGenerationRequest × List QrGenerationRequest)) (senders : Nat) :
    (work_when_available build render deliver batches senders).dispatched
        = batches.map (fun p => p.2.getLastD p.1) ∧
      (work_when_available build render deliver batches senders).results
        = batches.map (fun p => dispatchResult build render (p.2.getLastD p.1)) ∧
      (work_when_available build render deliver batches senders).results.length
        = batches.length :=
  ⟨run_dispatched build render deliver batches senders,
    run_results build render deliver batches senders,
    by rw [run_results]; simp⟩

/-- Claim C3: the worker loop terminates exactly when the blocking receive
observes the disconnected channel (all strong senders dropped, count zero);
the callback is invoked once per received batch and never after the loop
stops (the run's invocation count equals the batch count, stopped or not). -/
theorem worker_stops_iff_disconnect
    (build : QRBuilder → Except String QRCode) (render : QRCode → Pixmap)
    (deliver : PixelMapResult → Except EventLoopError Unit)
    (batches : List (QrGenerationRequest × List QrGenerationRequest)) (senders : Nat) :
    ((work_when_available build render deliver batches senders).exit
        = WorkerExit.stopped ↔ senders = 0) ∧
      (work_when_available build render deliver batches senders).results.length
        = batches.length := by
  constructor
  · rw [run_exit]
    by_cases h : senders = 0 <;> simp [h]
  · rw [run_results]; simp

/-- Claim C5: the callback is invoked exactly once per dispatched request,
and a delivery error returned by the callback is logged but not propagated:
the dispatched requests, the delivered results and the exit state of the run
do not depend on the callback's return values, and every delivery error
produces exactly its log line. -/
theorem delivery_failure_logged_not_propagated
    (build : QRBuilder → Except String QRCode) (render : QRCode → Pixmap)
    (d1 d2 : PixelMapResult → Except EventLoopError Unit)
    (batches : List (QrGenerationRequest × List QrGenerationRequest)) (senders : Nat) :
    (work_when_available build render d1 batches senders).results
        = (work_when_available build render d2 batches senders).results ∧
      (work_when_available build render d1 batches senders).dispatched
        = (work_when_available build render d2 batches senders).dispatched ∧
      (work_when_available build render d1 batches senders).exit
        = (work_when_available build render d2 batches senders).exit ∧
      (work_when_available build render d1 batches senders).results.length
        = batches.length ∧
      (work_when_available build render d1 batches senders).logs
        = (work_when_available build render d1 batches senders).results.filterMap
            (fun res =>
              match d1 res with
              | .error e => some ("Error while calling display callback: " ++ e)
              | .ok _ => none) :=
  ⟨by rw [run_results, run_results],
    by rw [run_dispatched, run_dispatched],
    by rw [run_exit, run_exit],
    by rw [run_results]; simp,
    run_logs build render d1 batches senders⟩

/-- Claim C10: requests still buffered in the channel when `stop_sender`
drops the last strong sender are not discarded: with sender count zero and a
nonempty queue, the blocking receive still returns the buffered requests, the
worker dispatches the surviving (last) one and invokes its callback, and only
the next receive — on the then-empty disconnected channel — stops the loop. -/
theorem buffered_requests_processed_before_stop
    (build : QRBuilder → Except String QRCode) (render : QRCode → Pixmap)
    (deliver : PixelMapResult → Except EventLoopError Unit)
    (first : QrGenerationRequest) (queued : List QrGenerationRequest) :
    workerStep build render deliver ⟨first :: queued, 0⟩
        = StepOutcome.dispatched (dispatchOne build render deliver first queued) ⟨[], 0⟩ ∧
      (dispatchOne build render deliver first queued).dispatched = queued.getLastD first ∧
      (dispatchOne build render deliver first queued).result
        = dispatchResult build render (queued.getLastD first) ∧
      workerStep build render deliver ⟨[], 0⟩ = StepOutcome.stopped :=
  ⟨rfl, dispatchOne_dispatched build render deliver first queued,
    dispatchOne_result build render deliver first queued, rfl⟩

/-- Claim C2: after `stop_sender` on the communicator (created by
`new_thread` and used through any sequence of producer operations), the
strong count of the shared sender is zero, so every previously obtained weak
handle fails to upgrade, and a subsequent `generate_qr_code` leaves the state
unchanged (the request is dropped) while logging the submission warning — the
operation is total, it never panics. -/
theorem stopped_sender_rejects_sends (ops : List ProducerOp) (d : String) (e : EcLevel) :
    upgrade (stop_sender (applyOps new_thread_state ops)).senderStrong = none ∧
      generate_qr_code (stop_sender (applyOps new_thread_state ops)) d e
        = (stop_sender (applyOps new_thread_state ops),
            ["Tried sending but thread sender doesn't exist!"]) := by
  have h : (stop_sender (applyOps new_thread_state ops)).senderStrong = 0 := by
    simp [stop_sender, applyOps_strong, new_thread_state]
  exact ⟨by simp [upgrade, h], by simp [generate_qr_code, upgrade, h]⟩

/-- Claim C7: every call of the producer-side `generate_qr_code` drops the
temporary strong reference obtained by upgrading the weak handle before
returning, so the sender's strong-reference count after the call equals its
value before the call. -/
theorem producer_send_preserves_strong_count (st : AppState) (d : String) (e : EcLevel) :
    ((generate_qr_code st d e).1).senderStrong = st.senderStrong :=
  generate_qr_code_strong st d e

/-- Claim C4: when the generator rejects the payload of the surviving request
of a batch, exactly one callback invocation occurs for that batch, it carries
`Err` with the generator's message, and no structured code is ever rendered
(the renderer is not invoked), so no artifact is produced. -/
theorem generator_rejection_error_passthrough
    (build : QRBuilder → Except String QRCode) (render : QRCode → Pixmap)
    (deliver : PixelMapResult → Except EventLoopError Unit)
    (first : QrGenerationRequest) (queued : List QrGenerationRequest)
    (senders : Nat) (msg : String)
    (h : new_qr_code_image build (queued.getLastD first) = Except.error msg) :
    (work_when_available build render deliver [(first, queued)] senders).results
        = [Except.error msg] ∧
      (work_when_available build render deliver [(first, queued)] senders).rendered
        = [] ∧
      (work_when_available build render deliver [(first, queued)] senders).results.length
        = 1 := by
  rw [List.getLastD_eq_getLast?] at h
  refine ⟨?_, ?_, ?_⟩
  · rw [run_results]
    simp [dispatchResult, h, Except.map]
  · simp [work_when_available, dispatchOne, drainLatest_eq_getLastD, h]
  · rw [run_results]; simp

/-- The spec-modelled generator rejects the oversized request with its
capacity message. -/
theorem specBuild_rejects_bigReq :
    new_qr_code_image specBuild bigReq
      = Except.error "The supplied data is too long to fit in a QR code at this level" := by
  have hlen : bigPayload.length = 1664 := by
    show (List.replicate 1664 'a').length = 1664
    exact List.length_replicate 1664 'a'
  simp [new_qr_code_image, bigReq, QRBuilder.new, specBuild, hlen, eclCapacity]

/-- Witness for the generator-rejection claim at a concrete oversized request
under the spec-modelled generator. -/
theorem generator_rejection_error_passthrough_witness :
    new_qr_code_image specBuild bigReq
        = Except.error "The supplied data is too long to fit in a QR code at this level" ∧
      (work_when_available specBuild specToPixmap (fun _ => Except.ok ())
          [(bigReq, [])] 0).results
        = [Except.error "The supplied data is too long to fit in a QR code at this level"] :=
  ⟨specBuild_rejects_bigReq,
    (generator_rejection_error_passthrough specBuild specToPixmap (fun _ => Except.ok ())
        bigReq [] 0 _ specBuild_rejects_bigReq).1⟩

/-- Claim C8: for the single request with payload `"Test data 123"` and no
explicit error-correction level, under any generator that accepts it and any
renderer producing square RGBA pixmaps (4 bytes per pixel, as the spec's
interface describes), the run performs exactly one callback invocation, it
carries `Ok` of the rendered buffer, that buffer is square, its pixel count
is `width * height * 4`, and the worker then stops. -/
theorem default_scenario_single_ok_square_buffer
    (build : QRBuilder → Except String QRCode) (render : QRCode → Pixmap)
    (deliver : PixelMapResult → Except EventLoopError Unit) (c : QRCode)
    (hb : build (QRBuilder.new "Test data 123") = Except.ok c)
    (hsq : ∀ code, (render code).height = (render code).width)
    (hlen : ∀ code, (render code).data.length
      = (render code).width * (render code).height * 4) :
    (work_when_available build render deliver
          [({ data := "Test data 123", correction_level := none }, [])] 0).results
        = [Except.ok (SharedPixelBuffer.clone_from_slice (render c).data
            (render c).width (render c).height)] ∧
      (SharedPixelBuffer.clone_from_slice (render c).data (render c).width
          (render c).height).width
        = (SharedPixelBuffer.clone_from_slice (render c).data (render c).width
            (render c).height).height ∧
      (SharedPixelBuffer.clone_from_slice (render c).data (render c).width
          (render c).height).pixels.length
        = (SharedPixelBuffer.clone_from_slice (render c).data (render c).width
              (render c).height).width
          * (SharedPixelBuffer.clone_from_slice (render c).data (render c).width
              (render c).height).height * 4 ∧
      (work_when_available build render deliver
          [({ data := "Test data 123", correction_level := none }, [])] 0).exit
        = WorkerExit.stopped := by
  refine ⟨?_, ?_, ?_, ?_⟩
  · rw [run_results]
    simp [dispatchResult, new_qr_code_image, hb, Except.map]
  · simpa [SharedPixelBuffer.clone_from_slice] using (hsq c).symm
  · simpa [SharedPixelBuffer.clone_from_slice] using hlen c
  · rw [run_exit]; rfl

/-- Witness for the default-request scenario under the spec-modelled
generator and renderer. -/
theorem default_scenario_witness :
    specBuild (QRBuilder.new "Test data 123")
        = Except.ok { data := "Test data 123", ecl := ECL.Q } ∧
      (work_when_available specBuild specToPixmap (fun _ => Except.ok ())
          [({ data := "Test data 123", correction_level := none }, [])] 0).results
        = [Except.ok testBuf] ∧
      testBuf.width = testBuf.height ∧
      testBuf.pixels.length = testBuf.width * testBuf.height * 4 :=
  have hb : specBuild (QRBuilder.new "Test data 123")
      = Except.ok { data := "Test data 123", ecl := ECL.Q } := by
    have hle : "Test data 123".length ≤ 1663 := by decide
    simp [specBuild, QRBuilder.new, eclCapacity, hle]
  have hall := default_scenario_single_ok_square_buffer specBuild specToPixmap
    (fun _ => Except.ok ()) { data := "Test data 123", ecl := ECL.Q } hb
    (fun _ => rfl) (fun code => by simp [specToPixmap])
  ⟨hb, hall.1, hall.2.1, hall.2.2.1⟩

/-- Claim C9: `new_qr_code_image` is deterministic and free of shared state —
for any (fixed, pure) builder and any two requests with equal payload and
equal quality parameter, the results are equal. -/
theorem generation_depends_only_on_request_fields
    (build : QRBuilder → Except String QRCode) (r1 r2 : QrGenerationRequest)
    (hd : r1.data = r2.data) (hc : r1.correction_level = r2.correction_level) :
    new_qr_code_image build r1 = new_qr_code_image build r2 := by
  cases r1 with
  | mk d1 c1 =>
      cases r2 with
      | mk d2 c2 =>
          dsimp at hd hc
          subst hd
          subst hc
          rfl

/-- Witness for determinism of generation at a concrete request. -/
theorem generation_deterministic_witness :
    ("Test data 123" = "Test data 123") ∧
      new_qr_code_image specBuild { data := "Test data 123", correction_level := some ECL.L }
        = new_qr_code_image specBuild { data := "Test data 123", correction_level := some ECL.L } :=
  ⟨rfl, generation_depends_only_on_request_fields specBuild _ _ rfl rfl⟩

end QrApp
